import Mathlib

/-!
Verification of the FastAPI MVC template backend (user registration, login,
token refresh, profile CRUD, role-gated authorization) against its
natural-language specification.  The Python sources are shallowly embedded:
ORM rows become structures, the database becomes an explicit list-backed
state, async request handlers become pure functions returning `Except`,
and raised `HTTPException`s / infrastructure errors become error values
dispatched through the registered exception handlers.
-/

set_option maxRecDepth 4000

/-- Application settings (src/config/settings.py): access token TTL in minutes. -/
def Settings.ACCESS_TOKEN_EXPIRE_MINUTES : Nat := 30

/-- Application settings (src/config/settings.py): refresh token TTL in days. -/
def Settings.REFRESH_TOKEN_EXPIRE_DAYS : Nat := 7

/-- Application settings (src/config/settings.py): default page size. -/
def Settings.DEFAULT_PAGE_SIZE : Nat := 10

/-- Application settings (src/config/settings.py): maximum page size. -/
def Settings.MAX_PAGE_SIZE : Nat := 100

/-- Application settings (src/config/settings.py): symmetric JWT signing secret. -/
def Settings.JWT_SECRET_KEY : String := "change-me"

/-- Role row (src/app/models/Role.py): id, unique role_name, optional description. -/
structure Role where
  id : Nat
  role_name : String
  description : Option String
deriving Repr, DecidableEq

/-- User row (src/app/models/User.py).  Timestamps are modelled as `Nat`
instants; the eagerly loaded `role` relationship is inlined as in
`selectinload(User.role)`. -/
structure User where
  id : Nat
  uuid : String
  username : String
  email : String
  hashed_password : String
  first_name : String
  middle_name : Option String
  last_name : String
  phone_number : String
  phone_number2 : Option String
  role_id : Nat
  is_active : Bool
  email_verified_on : Option Nat
  created_on : Nat
  updated_on : Nat
  deleted_on : Option Nat
  role : Role
deriving Repr, DecidableEq

/-- The attribute names declared on the `User` ORM model
(src/app/models/User.py lines 16-55), in declaration order.  Python
attribute access on a `User` instance succeeds exactly for these names
(plus inherited machinery); in particular `is_superuser` is NOT among
them, so `user.is_superuser` raises `AttributeError`. -/
def User.attributeNames : List String :=
  ["id", "uuid", "username", "email", "hashed_password",
   "first_name", "middle_name", "last_name", "phone_number", "phone_number2",
   "role_id", "is_active",
   "email_verified_on", "created_on", "updated_on", "deleted_on", "role"]

/-- Python attribute lookup for Boolean-valued attributes of a `User`
instance; `none` models `AttributeError` (the name is not a declared
column of the model, cf. `User.attributeNames`). -/
def User.lookupBoolAttr (u : User) (name : String) : Option Bool :=
  if name = "is_active" then some u.is_active else none

/-- Role payload of a user response (src/app/schemas/user_schema.py, `RoleResponse`). -/
structure RoleResponse where
  id : Nat
  role_name : String
  description : Option String
deriving Repr, DecidableEq

/-- Client-facing user record (src/app/schemas/user_schema.py, `UserResponse`):
the fields of `UserBase` plus id, uuid, is_active, timestamps and the nested
role.  There is no password field. -/
structure UserResponse where
  email : String
  username : String
  first_name : String
  middle_name : Option String
  last_name : String
  phone_number : String
  phone_number2 : Option String
  role_id : Nat
  id : Nat
  uuid : String
  is_active : Bool
  created_on : Nat
  updated_on : Nat
  role : RoleResponse
deriving Repr, DecidableEq

/-- `UserResponse.model_validate(user)` (pydantic `from_attributes`): reads the
schema's fields off the ORM instance, dropping everything else. -/
def UserResponse.model_validate (u : User) : UserResponse :=
  { email := u.email
    username := u.username
    first_name := u.first_name
    middle_name := u.middle_name
    last_name := u.last_name
    phone_number := u.phone_number
    phone_number2 := u.phone_number2
    role_id := u.role_id
    id := u.id
    uuid := u.uuid
    is_active := u.is_active
    created_on := u.created_on
    updated_on := u.updated_on
    role := { id := u.role.id, role_name := u.role.role_name, description := u.role.description } }

/-- Database state: the `users` and `roles` tables, rows in storage order. -/
structure DB where
  users : List User
  roles : List Role
deriving Repr, DecidableEq

/-- `UserRepository.get_by_id` (src/app/repositories/UserRepository.py):
`select(User).where(User.id == id)`, one row or none. -/
def DB.get_by_id (db : DB) (id : Nat) : Option User :=
  db.users.find? (fun u => u.id == id)

/-- `UserRepository.get_by_email`: `select(User).where(User.email == email)`. -/
def DB.get_by_email (db : DB) (email : String) : Option User :=
  db.users.find? (fun u => u.email == email)

/-- `UserRepository.get_by_username`: `select(User).where(User.username == username)`. -/
def DB.get_by_username (db : DB) (username : String) : Option User :=
  db.users.find? (fun u => u.username == username)

/-- `UserRepository.email_exists`: `select(User.id).where(User.email == email)` is non-empty. -/
def DB.email_exists (db : DB) (email : String) : Bool :=
  db.users.any (fun u => u.email == email)

/-- `UserRepository.username_exists`. -/
def DB.username_exists (db : DB) (username : String) : Bool :=
  db.users.any (fun u => u.username == username)

/-- `UserRepository.get_all(skip, limit)`:
`select(User).offset(skip).limit(limit)` over storage order. -/
def DB.get_all (db : DB) (skip : Nat) (limit : Nat) : List User :=
  (db.users.drop skip).take limit

/-- Decoded JWT payload dictionary.  `none` in a field models absence of the
key, matching Python `payload.get(key)` returning `None`; `typ` models the
`"type"` claim, `exp` the absolute expiry instant. -/
structure Payload where
  user_id : Option Nat
  username : Option String
  typ : Option String
  exp : Nat
deriving Repr, DecidableEq

/-- A compact token string.  `signed claims secret` is the HMAC-signed
encoding of `claims` under `secret`; `malformed s` is any string that is not
a well-formed signed token. -/
inductive TokenString where
  | signed (claims : Payload) (secret : String)
  | malformed (s : String)
deriving Repr, DecidableEq

/-- The claims structurally embedded in a token string, ignoring signature
and expiry (what an offline inspection of the token would reveal). -/
def TokenString.claims? : TokenString → Option Payload
  | .signed claims _ => some claims
  | .malformed _ => none

/-- The subject user id embedded in a token string. -/
def TokenString.subject (t : TokenString) : Option Nat :=
  t.claims?.bind (fun p => p.user_id)

/-- Modelled from the spec: `app/utils/security.py` (the Token Codec) is not
among the sources, only its callers are.  Per spec section 4.2, `decode`
verifies signature and expiry, returning the claims, and fails (here: the
callers observe `None`) if the signature mismatches, the structure is
malformed, or the token is expired. -/
def decode_token (now : Nat) : TokenString → Option Payload
  | .signed claims secret =>
      if secret == Settings.JWT_SECRET_KEY && now < claims.exp then some claims else none
  | .malformed _ => none

/-- Modelled from the spec: `app/utils/security.py` is not among the sources.
Per spec sections 4.2 and 6, `create_access_token` embeds the subject id, the
username, the type tag `"access"` and expiry `now + ttl` (ttl =
`ACCESS_TOKEN_EXPIRE_MINUTES`), signed with the configured secret. -/
def create_access_token (now : Nat) (user_id : Nat) (username : String) : TokenString :=
  .signed { user_id := some user_id, username := some username, typ := some "access",
            exp := now + Settings.ACCESS_TOKEN_EXPIRE_MINUTES * 60 }
    Settings.JWT_SECRET_KEY

/-- Modelled from the spec: `app/utils/security.py` is not among the sources.
Per spec sections 4.2 and 6, `create_refresh_token` embeds the subject id, the
type tag `"refresh"` and expiry `now + ttl` (ttl = `REFRESH_TOKEN_EXPIRE_DAYS`),
signed with the configured secret; the username claim is access-only. -/
def create_refresh_token (now : Nat) (user_id : Nat) : TokenString :=
  .signed { user_id := some user_id, username := none, typ := some "refresh",
            exp := now + Settings.REFRESH_TOKEN_EXPIRE_DAYS * 86400 }
    Settings.JWT_SECRET_KEY

/-- Modelled from the spec: `app/utils/security.py` (the Credential Hasher)
is not among the sources.  Per spec section 4.1, `hash` produces an opaque
one-way digest such that `verify` succeeds for equal plaintext against any
digest it produced; the digest is modelled as a tagged string. -/
def get_password_hash (plaintext : String) : String :=
  "pbkdf2-sha256$" ++ plaintext

/-- Modelled from the spec: `app/utils/security.py` is not among the sources.
Per spec section 4.1, `verify(plaintext, digest)` returns `True` exactly when
`digest` was produced by `hash` from the same plaintext, and returns `False`
(never throws) otherwise. -/
def verify_password (plaintext : String) (digest : String) : Bool :=
  digest == "pbkdf2-sha256$" ++ plaintext

/-- A Python exception escaping a request handler: a FastAPI `HTTPException`
with status code and detail, a SQLAlchemy `IntegrityError`, another
`SQLAlchemyError`, or an `AttributeError` on a missing attribute. -/
inductive PyExc where
  | http (status_code : Nat) (detail : String)
  | integrityErr (msg : String)
  | sqlalchemyErr (msg : String)
  | attributeErr (name : String)
deriving Repr, DecidableEq

/-- Python `str(exc)` for the exception values that reach a handler. -/
def PyExc.str : PyExc → String
  | .http _ detail => detail
  | .integrityErr msg => msg
  | .sqlalchemyErr msg => msg
  | .attributeErr name => "object has no attribute " ++ name

/-- JSON body of an error response: the `detail` key, plus the optional extra
`error` key some handlers add. -/
structure JSONErrorBody where
  detail : String
  error : Option String
deriving Repr, DecidableEq

/-- A JSON HTTP response. -/
structure JSONResponse where
  status_code : Nat
  body : JSONErrorBody
deriving Repr, DecidableEq

/-- `sqlalchemy_exception_handler` (src/app/exceptions/handlers.py lines
25-36): logs, then returns status 500 with body
`detail = "Database error occurred"` and `error = str(exc)`. -/
def sqlalchemy_exception_handler (excStr : String) : JSONResponse :=
  { status_code := 500
    body := { detail := "Database error occurred", error := some excStr } }

/-- `integrity_exception_handler` (src/app/exceptions/handlers.py lines
39-50): logs, then returns status 409 with a fixed body. -/
def integrity_exception_handler (excStr : String) : JSONResponse :=
  let _ := excStr
  { status_code := 409
    body := { detail := "Data integrity error",
              error := some "Duplicate entry or constraint violation" } }

/-- `general_exception_handler` (src/app/exceptions/handlers.py lines 53-62):
logs, then returns status 500 with body
`detail = "An unexpected error occurred"` and `error = str(exc)`. -/
def general_exception_handler (excStr : String) : JSONResponse :=
  { status_code := 500
    body := { detail := "An unexpected error occurred", error := some excStr } }

/-- Exception dispatch as registered in src/main.py lines 30-33: FastAPI
renders an `HTTPException` as its own status and detail; an `IntegrityError`
hits `integrity_exception_handler` (most specific class wins); any other
`SQLAlchemyError` hits `sqlalchemy_exception_handler`; everything else (for
example `AttributeError`) falls through to `general_exception_handler`. -/
def dispatchExc : PyExc → JSONResponse
  | .http status_code detail => { status_code := status_code, body := { detail := detail, error := none } }
  | .integrityErr msg => integrity_exception_handler msg
  | .sqlalchemyErr msg => sqlalchemy_exception_handler msg
  | .attributeErr name => general_exception_handler (PyExc.str (.attributeErr name))

/-- HTTP response of a whole request outcome: the handler's success encoding
is opaque here, errors go through `dispatchExc`.  Only the error side is
inspected by the claims. -/
def responseStatus {α : Type} : Except PyExc α → Nat
  | .ok _ => 200
  | .error e => (dispatchExc e).status_code

/-- Login request body (src/app/schemas/auth_schema.py, `LoginRequest`). -/
structure LoginRequest where
  email : String
  password : String
deriving Repr, DecidableEq

/-- Token pair response (src/app/schemas/auth_schema.py, `Token`). -/
structure Token where
  access_token : TokenString
  refresh_token : TokenString
  token_type : String
deriving Repr, DecidableEq

/-- `AuthService.login` (src/app/services/AuthService.py lines 18-42):
lookup by email; 401 "Incorrect email or password" if absent or the password
does not verify; 400 "Inactive user" if inactive; otherwise issue an access
and a refresh token for the user and return them with `token_type` "bearer".
`now` is the issue instant. -/
def AuthService.login (db : DB) (now : Nat) (login_data : LoginRequest) : Except PyExc Token :=
  match db.get_by_email login_data.email with
  | none => .error (.http 401 "Incorrect email or password")
  | some user =>
    if !(verify_password login_data.password user.hashed_password) then
      .error (.http 401 "Incorrect email or password")
    else if !user.is_active then
      .error (.http 400 "Inactive user")
    else
      .ok { access_token := create_access_token now user.id user.username
            refresh_token := create_refresh_token now user.id
            token_type := "bearer" }

/-- `AuthService.refresh_token` (src/app/services/AuthService.py lines
44-76): decode the presented token; 401 "Invalid refresh token" if decode
fails, the `type` claim is not `"refresh"`, or the `user_id` claim is
absent; 401 "User not found or inactive" if the subject user is absent or
inactive; otherwise issue a new access and a new refresh token. -/
def AuthService.refresh_token (db : DB) (now : Nat) (tok : TokenString) : Except PyExc Token :=
  match decode_token now tok with
  | none => .error (.http 401 "Invalid refresh token")
  | some payload =>
    if payload.typ != some "refresh" then
      .error (.http 401 "Invalid refresh token")
    else
      match payload.user_id with
      | none => .error (.http 401 "Invalid refresh token")
      | some user_id =>
        match db.get_by_id user_id with
        | none => .error (.http 401 "User not found or inactive")
        | some user =>
          if !user.is_active then
            .error (.http 401 "User not found or inactive")
          else
            .ok { access_token := create_access_token now user.id user.username
                  refresh_token := create_refresh_token now user.id
                  token_type := "bearer" }

/-- `get_current_user` (src/app/utils/dependencies.py lines 13-52): decode
the bearer token; 401 "Could not validate credentials" if decode fails, the
`type` claim is not `"access"`, or the `user_id` claim is absent; 401
"User not found" if no such user; 400 "Inactive user" if inactive;
otherwise return the user. -/
def get_current_user (db : DB) (now : Nat) (tok : TokenString) : Except PyExc User :=
  match decode_token now tok with
  | none => .error (.http 401 "Could not validate credentials")
  | some payload =>
    if payload.typ != some "access" then
      .error (.http 401 "Could not validate credentials")
    else
      match payload.user_id with
      | none => .error (.http 401 "Could not validate credentials")
      | some user_id =>
        match db.get_by_id user_id with
        | none => .error (.http 401 "User not found")
        | some user =>
          if !user.is_active then .error (.http 400 "Inactive user")
          else .ok user

/-- `get_current_active_user` (src/app/utils/dependencies.py lines 55-61):
re-checks `is_active` on the user resolved by `get_current_user`. -/
def get_current_active_user (db : DB) (now : Nat) (tok : TokenString) : Except PyExc User :=
  match get_current_user db now tok with
  | .error e => .error e
  | .ok current_user =>
    if !current_user.is_active then .error (.http 400 "Inactive user")
    else .ok current_user

/-- `get_current_admin` (src/app/utils/dependencies.py lines 64-70): on top
of `get_current_user`, fails 403 "Not enough privileges" unless the resolved
user's `role.role_name` equals the string `"admin"`. -/
def get_current_admin (db : DB) (now : Nat) (tok : TokenString) : Except PyExc User :=
  match get_current_user db now tok with
  | .error e => .error e
  | .ok current_user =>
    if current_user.role.role_name != "admin" then
      .error (.http 403 "Not enough privileges")
    else .ok current_user

/-- The names defined at module scope by src/app/utils/dependencies.py. -/
def dependenciesModuleDefs : List String :=
  ["security", "get_current_user", "get_current_active_user", "get_current_admin"]

/-- The names src/app/controllers/UserController.py line 7 imports from
`app.utils.dependencies`; importing a name the module does not define raises
`ImportError` when the controller module is loaded. -/
def userControllerImportsFromDependencies : List String :=
  ["get_current_user", "get_current_superuser"]

/-- User creation request (src/app/schemas/user_schema.py, `UserCreate`). -/
structure UserCreate where
  email : String
  username : String
  first_name : String
  middle_name : Option String
  last_name : String
  phone_number : String
  phone_number2 : Option String
  role_id : Nat
  password : String
deriving Repr, DecidableEq

/-- Partial user update request (src/app/schemas/user_schema.py,
`UserUpdate`): every field optional; `none` models a field absent from
`model_dump(exclude_unset=True)`. -/
structure UserUpdate where
  email : Option String
  username : Option String
  first_name : Option String
  middle_name : Option String
  last_name : Option String
  phone_number : Option String
  phone_number2 : Option String
  password : Option String
  role_id : Option Nat
  is_active : Option Bool
deriving Repr, DecidableEq

/-- Storage-assigned values of a freshly inserted row: the autoincrement id,
the generated uuid, and the insertion instant used for both timestamps. -/
structure FreshRow where
  id : Nat
  uuid : String
  now : Nat
deriving Repr, DecidableEq

/-- `UserRepository.create` (src/app/repositories/UserRepository.py lines
13-19) together with the storage layer's constraints at flush time: the
insert violates a unique constraint if the new row's id, uuid, username or
email collides with an existing row, and the `role_id` foreign key must
resolve; on success the row is appended and returned with its role eagerly
loaded (`refresh(user, ["role"])`). -/
def UserRepository.create (db : DB) (user_data : UserCreate) (hashed_password : String)
    (fresh : FreshRow) : Except PyExc (DB × User) :=
  if db.users.any (fun v =>
      v.id == fresh.id || v.uuid == fresh.uuid ||
      v.username == user_data.username || v.email == user_data.email) then
    .error (.integrityErr "Duplicate entry")
  else
    match db.roles.find? (fun r => r.id == user_data.role_id) with
    | none => .error (.integrityErr "Cannot add or update a child row: a foreign key constraint fails")
    | some role =>
      let user : User :=
        { id := fresh.id
          uuid := fresh.uuid
          username := user_data.username
          email := user_data.email
          hashed_password := hashed_password
          first_name := user_data.first_name
          middle_name := user_data.middle_name
          last_name := user_data.last_name
          phone_number := user_data.phone_number
          phone_number2 := user_data.phone_number2
          role_id := user_data.role_id
          is_active := true
          email_verified_on := none
          created_on := fresh.now
          updated_on := fresh.now
          deleted_on := none
          role := role }
      .ok ({ users := db.users ++ [user], roles := db.roles }, user)

/-- `UserService.create_user` (src/app/services/UserService.py lines 15-46):
pre-check email then username against the state seen at check time
(`db_check`), failing 400 before any write; then hash the password and
insert against the state at insert time (`db_insert`) — the two states can
differ, which is exactly the check-then-insert race window. -/
def UserService.create_user (db_check : DB) (db_insert : DB) (user_data : UserCreate)
    (fresh : FreshRow) : Except PyExc (DB × UserResponse) :=
  if db_check.email_exists user_data.email then
    .error (.http 400 "Email already registered")
  else if db_check.username_exists user_data.username then
    .error (.http 400 "Username already taken")
  else
    match UserRepository.create db_insert user_data (get_password_hash user_data.password) fresh with
    | .error e => .error e
    | .ok (db2, user) => .ok (db2, UserResponse.model_validate user)

/-- `UserService.get_user_by_id` (src/app/services/UserService.py lines
48-55): 404 "User not found" if absent, otherwise the validated response. -/
def UserService.get_user_by_id (db : DB) (user_id : Nat) : Except PyExc UserResponse :=
  match db.get_by_id user_id with
  | none => .error (.http 404 "User not found")
  | some user => .ok (UserResponse.model_validate user)

/-- `UserService.get_all_users` (src/app/services/UserService.py lines
57-62): repository pagination then per-row validation; the Python defaults
are `skip=0, limit=100`. -/
def UserService.get_all_users (db : DB) (skip : Nat := 0) (limit : Nat := 100) :
    List UserResponse :=
  (db.get_all skip limit).map UserResponse.model_validate

/-- Application of `UserRepository.update`'s setattr loop (lines 51-59) to a
row: each provided field overwrites the column, a provided password arrives
already hashed (service line 75-78), and the refreshed `role` relationship
resolves the (possibly new) `role_id` against the roles table. -/
def User.applyUpdate (roles : List Role) (u : User) (d : UserUpdate) : User :=
  let newRoleId := d.role_id.getD u.role_id
  { u with
    email := d.email.getD u.email
    username := d.username.getD u.username
    first_name := d.first_name.getD u.first_name
    middle_name := match d.middle_name with | some m => some m | none => u.middle_name
    last_name := d.last_name.getD u.last_name
    phone_number := d.phone_number.getD u.phone_number
    phone_number2 := match d.phone_number2 with | some p => some p | none => u.phone_number2
    hashed_password := match d.password with
      | some p => get_password_hash p
      | none => u.hashed_password
    role_id := newRoleId
    is_active := d.is_active.getD u.is_active
    role := (roles.find? (fun r => r.id == newRoleId)).getD u.role }

/-- `UserService.update_user` (src/app/services/UserService.py lines 64-97):
404 if the user is absent; 400 "Email already registered" if a changed email
already exists; 400 "Username already taken" if a changed username already
exists; otherwise write the provided fields and return the validated row. -/
def UserService.update_user (db : DB) (user_id : Nat) (user_data : UserUpdate) :
    Except PyExc (DB × UserResponse) :=
  match db.get_by_id user_id with
  | none => .error (.http 404 "User not found")
  | some user =>
    let emailConflict :=
      match user_data.email with
      | some e => e != user.email && db.email_exists e
      | none => false
    let usernameConflict :=
      match user_data.username with
      | some n => n != user.username && db.username_exists n
      | none => false
    if emailConflict then .error (.http 400 "Email already registered")
    else if usernameConflict then .error (.http 400 "Username already taken")
    else
      let updated := user.applyUpdate db.roles user_data
      let db2 : DB :=
        { users := db.users.map (fun v => if v.id == user_id then updated else v)
          roles := db.roles }
      .ok (db2, UserResponse.model_validate updated)

/-- `UserService.delete_user` (src/app/services/UserService.py lines
99-107) with `BaseRepository.delete`: 404 if absent, otherwise delete the
row by id. -/
def UserService.delete_user (db : DB) (user_id : Nat) : Except PyExc DB :=
  match db.get_by_id user_id with
  | none => .error (.http 404 "User not found")
  | some _ => .ok { users := db.users.filter (fun v => !(v.id == user_id)), roles := db.roles }

/-- The ownership check opening `UserController.update_user`
(src/app/controllers/UserController.py lines 49-53), with Python evaluation
order: `if user_id != current_user.id and not current_user.is_superuser`.
The left conjunct short-circuits; evaluating the right conjunct looks up the
attribute `is_superuser` on the `User` instance, which the model does not
define (`User.lookupBoolAttr` yields `none`), raising `AttributeError`. -/
def UserController.update_user_authz (current_user : User) (user_id : Nat) :
    Except PyExc Unit :=
  if user_id != current_user.id then
    match current_user.lookupBoolAttr "is_superuser" with
    | none => .error (.attributeErr "is_superuser")
    | some is_sup =>
      if !is_sup then .error (.http 403 "Not enough permissions")
      else .ok ()
  else .ok ()

/-- `UserController.get_me` (src/app/controllers/UserController.py lines
69-72): validate the resolved current user. -/
def UserController.get_me (current_user : User) : UserResponse :=
  UserResponse.model_validate current_user

/-- Route `GET /users` (src/app/routes/user_routes.py lines 86-109): guarded
by `get_current_admin`, then `UserController.get_all_users` delegating to the
service. -/
def user_routes.get_all_users (db : DB) (now : Nat) (tok : TokenString)
    (skip : Nat := 0) (limit : Nat := 100) : Except PyExc (List UserResponse) :=
  match get_current_admin db now tok with
  | .error e => .error e
  | .ok _ => .ok (UserService.get_all_users db skip limit)

/-- Route `DELETE /users/{user_id}` (src/app/routes/user_routes.py lines
141-161): guarded by `get_current_admin`, then deletion by id. -/
def user_routes.delete_user (db : DB) (now : Nat) (tok : TokenString) (user_id : Nat) :
    Except PyExc DB :=
  match get_current_admin db now tok with
  | .error e => .error e
  | .ok _ => UserService.delete_user db user_id

/-- Route `PATCH /users/{user_id}` (src/app/routes/user_routes.py lines
112-138): resolve the caller via `get_current_active_user`, then
`UserController.update_user`: the ownership/superuser check, then the
service update. -/
def user_routes.update_user (db : DB) (now : Nat) (tok : TokenString) (user_id : Nat)
    (user_data : UserUpdate) : Except PyExc (DB × UserResponse) :=
  match get_current_active_user db now tok with
  | .error e => .error e
  | .ok current_user =>
    match UserController.update_user_authz current_user user_id with
    | .error e => .error e
    | .ok _ => UserService.update_user db user_id user_data

/-- A user's hashed password replaced by the empty digest; the sensitive
field scrubbed, everything else intact. -/
def User.scrub (u : User) : User :=
  { u with hashed_password := "" }

/-- The database with every stored digest scrubbed. -/
def DB.scrub (db : DB) : DB :=
  { users := db.users.map User.scrub, roles := db.roles }

/-- Concrete fixture: the well-known privileged role. -/
def adminRole : Role := { id := 1, role_name := "admin", description := some "Administrator" }

/-- Concrete fixture: an ordinary role. -/
def memberRole : Role := { id := 2, role_name := "user", description := none }

/-- Concrete fixture builder for stored users. -/
def mkStoredUser (id : Nat) (uname : String) (email : String) (pw : String)
    (r : Role) (active : Bool) : User :=
  { id := id
    uuid := "uuid-" ++ uname
    username := uname
    email := email
    hashed_password := get_password_hash pw
    first_name := "First"
    middle_name := none
    last_name := "Last"
    phone_number := "09170000000"
    phone_number2 := none
    role_id := r.id
    is_active := active
    email_verified_on := none
    created_on := 0
    updated_on := 0
    deleted_on := none
    role := r }

/-- Concrete fixture: an active non-admin user, id 1. -/
def alice : User := mkStoredUser 1 "alice" "alice@x.com" "alicepw1" memberRole true

/-- Concrete fixture: another active non-admin user, id 2. -/
def bob : User := mkStoredUser 2 "bob" "bob@x.com" "bobpw123" memberRole true

/-- Concrete fixture: an inactive user with a known password, id 3. -/
def ivan : User := mkStoredUser 3 "ivan" "ivan@x.com" "ivanpw12" memberRole false

/-- Concrete fixture: an active admin user, id 4. -/
def ada : User := mkStoredUser 4 "ada" "ada@x.com" "adapw123" adminRole true

/-- Concrete fixture database holding the four users above. -/
def demoDb : DB := { users := [alice, bob, ivan, ada], roles := [adminRole, memberRole] }

/-- Concrete fixture: a PATCH body with no field set. -/
def emptyUpdate : UserUpdate :=
  { email := none, username := none, first_name := none, middle_name := none,
    last_name := none, phone_number := none, phone_number2 := none,
    password := none, role_id := none, is_active := none }

/-- C1 (code_bug): the spec says a non-admin PATCHing another user's profile
receives 403 and a self-PATCH succeeds.  The code cannot produce the 403:
`UserController.py` line 7 imports `get_current_superuser`, a name
`app.utils.dependencies` does not define (`ImportError` at module load), and
the line-50 check reads `current_user.is_superuser`, an attribute the `User`
model does not declare — so the cross-user branch raises `AttributeError`,
dispatched by `general_exception_handler` to a 500, never the documented
403.  The self-update branch short-circuits before the broken attribute and
proceeds. -/
theorem C1_update_user_superuser_check_broken :
  "get_current_superuser" ∈ userControllerImportsFromDependencies ∧
  "get_current_superuser" ∉ dependenciesModuleDefs ∧
  "is_superuser" ∉ User.attributeNames ∧
  UserController.update_user_authz alice 2 = .error (.attributeErr "is_superuser") ∧
  user_routes.update_user demoDb 0 (create_access_token 0 1 "alice") 2 emptyUpdate
    = .error (.attributeErr "is_superuser") ∧
  responseStatus (user_routes.update_user demoDb 0 (create_access_token 0 1 "alice") 2 emptyUpdate)
    = 500 ∧
  user_routes.update_user demoDb 0 (create_access_token 0 1 "alice") 1 emptyUpdate
    = .ok (demoDb, UserResponse.model_validate alice) := by
  refine ⟨by decide, by decide, by decide, rfl, rfl, rfl, rfl⟩

/-- C2 (counterexample): at a concrete inactive user whose email resolves and
whose password verifies, `login` returns the 400 "Inactive user" error, not a
401 Unauthorized as the claim states. -/
theorem C2_counterexample_inactive_login_is_400 :
  demoDb.get_by_email "ivan@x.com" = some ivan ∧
  verify_password "ivanpw12" ivan.hashed_password = true ∧
  ivan.is_active = false ∧
  AuthService.login demoDb 0 { email := "ivan@x.com", password := "ivanpw12" }
    = .error (.http 400 "Inactive user") ∧
  responseStatus (AuthService.login demoDb 0 { email := "ivan@x.com", password := "ivanpw12" })
    = 400 := by
  refine ⟨rfl, rfl, rfl, rfl, rfl⟩

/-- C2 (amended): for every login whose email resolves to a user, whose
password verifies against the stored hash, and whose user is inactive, login
fails with status 400 Bad Request and the distinguishing detail
"Inactive user". -/
theorem C2_inactive_login_fails_400_inactive_user
    (db : DB) (now : Nat) (l : LoginRequest) (u : User)
    (hfind : db.get_by_email l.email = some u)
    (hpw : verify_password l.password u.hashed_password = true)
    (hinact : u.is_active = false) :
    AuthService.login db now l = .error (.http 400 "Inactive user") := by
  unfold AuthService.login
  rw [hfind]
  simp [hpw, hinact]

/-- C2 witness: the amended theorem applied at the concrete inactive user. -/
theorem C2_witness :
    AuthService.login demoDb 5 { email := "ivan@x.com", password := "ivanpw12" }
      = .error (.http 400 "Inactive user") :=
  C2_inactive_login_fails_400_inactive_user demoDb 5
    { email := "ivan@x.com", password := "ivanpw12" } ivan rfl rfl rfl

/-- C3 (counterexample): at a concrete storage error, the 500 handler puts
`str(exc)` into the response body's `error` field, so internal detail of the
underlying exception IS leaked to the client, contrary to the claim. -/
theorem C3_counterexample_500_body_leaks_detail :
  (sqlalchemy_exception_handler "Lost connection to MySQL server during query").status_code = 500 ∧
  (sqlalchemy_exception_handler "Lost connection to MySQL server during query").body.error
    = some "Lost connection to MySQL server during query" ∧
  (sqlalchemy_exception_handler "Lost connection to MySQL server during query").body.error ≠ none ∧
  (general_exception_handler "KeyError at secret internal path").body.error
    = some "KeyError at secret internal path" := by
  refine ⟨rfl, rfl, by decide, rfl⟩

/-- C3 (amended): every uncaught storage or infrastructure error yields
status 500 with a generic `detail`, and the body additionally carries an
`error` field equal to `str(exc)` — the internal detail is included in the
client-visible body (it is also logged server-side). -/
theorem C3_500_handlers_return_generic_detail_plus_exc (excStr : String) :
    (sqlalchemy_exception_handler excStr).status_code = 500 ∧
    (sqlalchemy_exception_handler excStr).body.detail = "Database error occurred" ∧
    (sqlalchemy_exception_handler excStr).body.error = some excStr ∧
    (general_exception_handler excStr).status_code = 500 ∧
    (general_exception_handler excStr).body.detail = "An unexpected error occurred" ∧
    (general_exception_handler excStr).body.error = some excStr :=
  ⟨rfl, rfl, rfl, rfl, rfl, rfl⟩

/-- C4: every login whose email matches no user, and every login whose email
matches a user but whose password does not verify, fails with 401 and the
very same literal detail "Incorrect email or password" — no enumeration
signal. -/
theorem C4_login_unknown_email_and_bad_password_indistinguishable
    (db : DB) (now : Nat) (l : LoginRequest)
    (h : db.get_by_email l.email = none ∨
         ∃ u, db.get_by_email l.email = some u ∧
              verify_password l.password u.hashed_password = false) :
    AuthService.login db now l = .error (.http 401 "Incorrect email or password") := by
  unfold AuthService.login
  rcases h with h | ⟨u, hu, hv⟩
  · rw [h]
  · rw [hu]
    simp [hv]

/-- C4 witness: the theorem applied at an unknown email, and at a known email
with a wrong password, both yielding the identical error. -/
theorem C4_witness :
    AuthService.login demoDb 0 { email := "nobody@x.com", password := "whatever" }
      = .error (.http 401 "Incorrect email or password") ∧
    AuthService.login demoDb 0 { email := "alice@x.com", password := "wrongpw1" }
      = .error (.http 401 "Incorrect email or password") :=
  ⟨C4_login_unknown_email_and_bad_password_indistinguishable demoDb 0
      { email := "nobody@x.com", password := "whatever" } (Or.inl rfl),
   C4_login_unknown_email_and_bad_password_indistinguishable demoDb 0
      { email := "alice@x.com", password := "wrongpw1" } (Or.inr ⟨alice, rfl, rfl⟩)⟩

/-- C5: token type is checked explicitly on both acceptance paths: whenever
the presented token decodes to a payload whose `type` claim is not
`"refresh"` (for example a well-formed, unexpired access token), refresh
fails 401; and whenever it decodes to a payload whose `type` claim is not
`"access"` (for example a well-formed, unexpired refresh token), the
authorization guard fails 401. -/
theorem C5_token_type_checked_on_both_paths
    (db : DB) (now : Nat) (tok : TokenString) (p : Payload)
    (hdec : decode_token now tok = some p) :
    (p.typ ≠ some "refresh" →
       AuthService.refresh_token db now tok = .error (.http 401 "Invalid refresh token")) ∧
    (p.typ ≠ some "access" →
       get_current_user db now tok = .error (.http 401 "Could not validate credentials")) := by
  constructor
  · intro hne
    unfold AuthService.refresh_token
    rw [hdec]
    simp [hne]
  · intro hne
    unfold get_current_user
    rw [hdec]
    simp [hne]

/-- C5 witness: a freshly created, unexpired access token is rejected by
refresh, and a freshly created, unexpired refresh token is rejected by the
guard, both with 401. -/
theorem C5_witness :
    AuthService.refresh_token demoDb 0 (create_access_token 0 1 "alice")
      = .error (.http 401 "Invalid refresh token") ∧
    get_current_user demoDb 0 (create_refresh_token 0 1)
      = .error (.http 401 "Could not validate credentials") :=
  ⟨(C5_token_type_checked_on_both_paths demoDb 0 (create_access_token 0 1 "alice") _ rfl).1
      (by decide),
   (C5_token_type_checked_on_both_paths demoDb 0 (create_refresh_token 0 1) _ rfl).2
      (by decide)⟩

/-- C6: every successful login of an active user with matching credentials,
and every successful refresh, returns a pair of newly created tokens (issued
at the current instant, not the presented one) whose embedded subject id
equals the authenticated user's id, tagged with `token_type` "bearer"; on
the refresh path the resolved user's id moreover equals the presented
token's subject claim. -/
theorem C6_issued_tokens_bound_to_user
    (db : DB) (now : Nat) :
    (∀ l u, db.get_by_email l.email = some u →
       verify_password l.password u.hashed_password = true →
       u.is_active = true →
       AuthService.login db now l
         = .ok { access_token := create_access_token now u.id u.username,
                 refresh_token := create_refresh_token now u.id,
                 token_type := "bearer" } ∧
       (create_access_token now u.id u.username).subject = some u.id ∧
       (create_refresh_token now u.id).subject = some u.id) ∧
    (∀ tok p uid u, decode_token now tok = some p → p.typ = some "refresh" →
       p.user_id = some uid → db.get_by_id uid = some u → u.is_active = true →
       u.id = uid ∧
       AuthService.refresh_token db now tok
         = .ok { access_token := create_access_token now u.id u.username,
                 refresh_token := create_refresh_token now u.id,
                 token_type := "bearer" } ∧
       (create_access_token now u.id u.username).subject = some u.id ∧
       (create_refresh_token now u.id).subject = some u.id) := by
  constructor
  · intro l u hfind hpw hact
    refine ⟨?_, rfl, rfl⟩
    unfold AuthService.login
    rw [hfind]
    simp [hpw, hact]
  · intro tok p uid u hdec htyp huid hbyid hact
    have hid : u.id = uid := by
      have := List.find?_some hbyid
      simpa using this
    refine ⟨hid, ?_, rfl, rfl⟩
    unfold AuthService.refresh_token
    rw [hdec]
    simp [htyp, huid, hbyid, hact]

/-- C6 witness: concrete successful login of the active user `alice`, and a
concrete successful refresh of her refresh token, both yielding fresh
"bearer" pairs whose subject is her id. -/
theorem C6_witness :
    AuthService.login demoDb 7 { email := "alice@x.com", password := "alicepw1" }
      = .ok { access_token := create_access_token 7 1 "alice",
              refresh_token := create_refresh_token 7 1,
              token_type := "bearer" } ∧
    AuthService.refresh_token demoDb 7 (create_refresh_token 0 1)
      = .ok { access_token := create_access_token 7 1 "alice",
              refresh_token := create_refresh_token 7 1,
              token_type := "bearer" } :=
  ⟨((C6_issued_tokens_bound_to_user demoDb 7).1
      { email := "alice@x.com", password := "alicepw1" } alice rfl rfl rfl).1,
   ((C6_issued_tokens_bound_to_user demoDb 7).2
      (create_refresh_token 0 1) _ 1 alice rfl rfl rfl rfl rfl).2.1⟩

/-- C7: for every request to the admin-only list-users or delete-user route
whose access token resolves (via the guard) to an active user, if that
user's role name differs from the string `"admin"` the request fails 403
"Not enough privileges" (status 403, not 401); if it equals `"admin"` the
guard admits the user — the decision is string equality on the role name. -/
theorem C7_admin_routes_require_admin_role_name
    (db : DB) (now : Nat) (tok : TokenString) (u : User)
    (hok : get_current_user db now tok = .ok u) :
    (u.role.role_name ≠ "admin" →
       get_current_admin db now tok = .error (.http 403 "Not enough privileges") ∧
       (∀ skip limit, user_routes.get_all_users db now tok skip limit
          = .error (.http 403 "Not enough privileges")) ∧
       (∀ user_id, user_routes.delete_user db now tok user_id
          = .error (.http 403 "Not enough privileges")) ∧
       responseStatus (get_current_admin db now tok) = 403) ∧
    (u.role.role_name = "admin" → get_current_admin db now tok = .ok u) := by
  constructor
  · intro hne
    have hadmin : get_current_admin db now tok = .error (.http 403 "Not enough privileges") := by
      unfold get_current_admin
      rw [hok]
      simp [hne]
    refine ⟨hadmin, ?_, ?_, ?_⟩
    · intro skip limit
      unfold user_routes.get_all_users
      rw [hadmin]
    · intro user_id
      unfold user_routes.delete_user
      rw [hadmin]
    · rw [hadmin]
      rfl
  · intro heq
    unfold get_current_admin
    rw [hok]
    simp [heq]

/-- C7 witness: the non-admin `bob` presenting a valid access token is
rejected 403 by the list-users route, and the admin `ada` passes the guard. -/
theorem C7_witness :
    user_routes.get_all_users demoDb 0 (create_access_token 0 2 "bob") 0 100
      = .error (.http 403 "Not enough privileges") ∧
    get_current_admin demoDb 0 (create_access_token 0 4 "ada") = .ok ada :=
  ⟨(((C7_admin_routes_require_admin_role_name demoDb 0
        (create_access_token 0 2 "bob") bob rfl).1 (by decide)).2.1 0 100),
   ((C7_admin_routes_require_admin_role_name demoDb 0
        (create_access_token 0 4 "ada") ada rfl).2 rfl)⟩

@[simp] theorem User.scrub_id (u : User) : u.scrub.id = u.id := rfl

@[simp] theorem User.scrub_uuid (u : User) : u.scrub.uuid = u.uuid := rfl

@[simp] theorem User.scrub_username (u : User) : u.scrub.username = u.username := rfl

@[simp] theorem User.scrub_email (u : User) : u.scrub.email = u.email := rfl

@[simp] theorem DB.scrub_roles (db : DB) : db.scrub.roles = db.roles := rfl

/-- Scrubbing the digest changes nothing a `find?` over id can observe. -/
theorem List.find?_scrubUsers (l : List User) (p : User → Bool)
    (hp : ∀ u, p u.scrub = p u) :
    (l.map User.scrub).find? p = (l.find? p).map User.scrub := by
  induction l with
  | nil => rfl
  | cons a t ih =>
    simp only [List.map_cons, List.find?]
    rw [hp a]
    cases p a
    · simpa using ih
    · rfl

/-- Scrubbing the digest changes nothing an `any` over non-digest fields can
observe. -/
theorem List.any_scrubUsers (l : List User) (p : User → Bool)
    (hp : ∀ u, p u.scrub = p u) :
    (l.map User.scrub).any p = l.any p := by
  induction l with
  | nil => rfl
  | cons a t ih => simp [List.any_cons, hp, ih]

/-- Lookup by id commutes with scrubbing. -/
theorem DB.get_by_id_scrub (db : DB) (uid : Nat) :
    db.scrub.get_by_id uid = (db.get_by_id uid).map User.scrub :=
  List.find?_scrubUsers db.users _ (fun _ => rfl)

/-- Email existence is digest-independent. -/
theorem DB.email_exists_scrub (db : DB) (e : String) :
    db.scrub.email_exists e = db.email_exists e :=
  List.any_scrubUsers db.users _ (fun _ => rfl)

/-- Username existence is digest-independent. -/
theorem DB.username_exists_scrub (db : DB) (n : String) :
    db.scrub.username_exists n = db.username_exists n :=
  List.any_scrubUsers db.users _ (fun _ => rfl)

/-- Validation of a scrubbed row equals validation of the row: the schema
reads no password field. -/
theorem UserResponse.model_validate_scrub (u : User) :
    UserResponse.model_validate u.scrub = UserResponse.model_validate u := rfl

/-- The validated result of an update is digest-independent in the stored
row: only an explicitly provided new password influences the stored digest,
and the response omits it either way. -/
theorem UserResponse.model_validate_applyUpdate_scrub (roles : List Role) (u : User)
    (d : UserUpdate) :
    UserResponse.model_validate (u.scrub.applyUpdate roles d)
      = UserResponse.model_validate (u.applyUpdate roles d) := rfl

/-- Projection of an outcome carrying a successor state to the client-visible
response component. -/
def responseOnly {β : Type} : Except PyExc (DB × β) → Except PyExc β
  | .ok p => .ok p.2
  | .error e => .error e

/-- Validating each element of a scrubbed row list gives the plain responses. -/
theorem List.map_mv_scrub (l : List User) :
    l.map (UserResponse.model_validate ∘ User.scrub) = l.map UserResponse.model_validate := by
  induction l with
  | nil => rfl
  | cons a t ih =>
    simp only [List.map_cons, ih]
    rfl

/-- The inserted row returned by the repository is digest-independent in the
pre-existing rows: scrubbing stored digests changes neither the duplicate
check nor the created row. -/
theorem UserRepository.create_scrub (b : DB) (req : UserCreate) (hashed : String)
    (fresh : FreshRow) :
    responseOnly (UserRepository.create b.scrub req hashed fresh)
      = responseOnly (UserRepository.create b req hashed fresh) := by
  unfold UserRepository.create
  rw [show b.scrub.users = b.users.map User.scrub from rfl,
      List.any_scrubUsers b.users
        (fun v => v.id == fresh.id || v.uuid == fresh.uuid ||
                  v.username == req.username || v.email == req.email)
        (fun _ => rfl),
      DB.scrub_roles]
  split
  · rfl
  · split <;> rfl

/-- C8: no operation that returns a user record to a client exposes the
password digest.  The response schema `UserResponse` has no password field:
validating a row with any replacement digest gives the same response, and
the client-visible output of get-me, get-by-id, list, registration and
update is invariant under scrubbing every stored digest. -/
theorem C8_responses_never_include_password_digest :
    (∀ (u : User) (s : String),
       UserResponse.model_validate { u with hashed_password := s }
         = UserResponse.model_validate u) ∧
    (∀ u : User, UserController.get_me u.scrub = UserController.get_me u) ∧
    (∀ (db : DB) (uid : Nat),
       UserService.get_user_by_id db.scrub uid = UserService.get_user_by_id db uid) ∧
    (∀ (db : DB) (skip limit : Nat),
       UserService.get_all_users db.scrub skip limit
         = UserService.get_all_users db skip limit) ∧
    (∀ (a b : DB) (req : UserCreate) (fresh : FreshRow),
       responseOnly (UserService.create_user a.scrub b.scrub req fresh)
         = responseOnly (UserService.create_user a b req fresh)) ∧
    (∀ (db : DB) (uid : Nat) (d : UserUpdate),
       responseOnly (UserService.update_user db.scrub uid d)
         = responseOnly (UserService.update_user db uid d)) := by
  refine ⟨fun u s => rfl, fun u => rfl, ?_, ?_, ?_, ?_⟩
  · intro db uid
    unfold UserService.get_user_by_id
    rw [DB.get_by_id_scrub]
    cases db.get_by_id uid <;> rfl
  · intro db skip limit
    unfold UserService.get_all_users DB.get_all
    rw [show db.scrub.users = db.users.map User.scrub from rfl,
        ← List.map_drop, ← List.map_take, List.map_map, List.map_mv_scrub]
  · intro a b req fresh
    have hrepo := UserRepository.create_scrub b req (get_password_hash req.password) fresh
    unfold UserService.create_user
    rw [DB.email_exists_scrub, DB.username_exists_scrub]
    split
    · rfl
    · split
      · rfl
      · cases hcs : UserRepository.create b.scrub req (get_password_hash req.password) fresh with
        | error e =>
          cases hc : UserRepository.create b req (get_password_hash req.password) fresh with
          | error e2 =>
            rw [hcs, hc] at hrepo
            simp only [responseOnly, Except.error.injEq] at hrepo
            simp [responseOnly, hrepo]
          | ok p =>
            rw [hcs, hc] at hrepo
            simp [responseOnly] at hrepo
        | ok p =>
          obtain ⟨db2, u2⟩ := p
          cases hc : UserRepository.create b req (get_password_hash req.password) fresh with
          | error e2 =>
            rw [hcs, hc] at hrepo
            simp [responseOnly] at hrepo
          | ok q =>
            obtain ⟨db3, u3⟩ := q
            rw [hcs, hc] at hrepo
            simp only [responseOnly, Except.ok.injEq] at hrepo
            subst hrepo
            simp [responseOnly]
  · intro db uid d
    unfold UserService.update_user
    rw [DB.get_by_id_scrub]
    cases hu : db.get_by_id uid with
    | none => rfl
    | some u =>
      simp only [Option.map_some']
      simp only [DB.email_exists_scrub, DB.username_exists_scrub,
        User.scrub_email, User.scrub_username, DB.scrub_roles]
      split
      · rfl
      · split
        · rfl
        · simp only [responseOnly]
          rw [UserResponse.model_validate_applyUpdate_scrub]

/-- C9: user creation pre-checks email then username against the state seen
at check time and fails 400 before any write (an error outcome carries no
successor state); and when the pre-check passed but the storage unique
constraint is violated at insert time — the state changed in the race
window — the call surfaces `IntegrityError`, dispatched to 409 Conflict,
rather than succeeding. -/
theorem C9_create_user_duplicate_handling
    (db_check db_insert : DB) (req : UserCreate) (fresh : FreshRow) :
    (db_check.email_exists req.email = true →
       UserService.create_user db_check db_insert req fresh
         = .error (.http 400 "Email already registered") ∧
       responseStatus (UserService.create_user db_check db_insert req fresh) = 400) ∧
    (db_check.email_exists req.email = false →
     db_check.username_exists req.username = true →
       UserService.create_user db_check db_insert req fresh
         = .error (.http 400 "Username already taken")) ∧
    (db_check.email_exists req.email = false →
     db_check.username_exists req.username = false →
     db_insert.email_exists req.email = true →
       UserService.create_user db_check db_insert req fresh
         = .error (.integrityErr "Duplicate entry") ∧
       responseStatus (UserService.create_user db_check db_insert req fresh) = 409) := by
  refine ⟨?_, ?_, ?_⟩
  · intro h1
    have : UserService.create_user db_check db_insert req fresh
        = .error (.http 400 "Email already registered") := by
      unfold UserService.create_user
      simp [h1]
    exact ⟨this, by rw [this]; rfl⟩
  · intro h1 h2
    unfold UserService.create_user
    simp [h1, h2]
  · intro h1 h2 h3
    obtain ⟨v, hv, he⟩ := List.any_eq_true.mp h3
    have hdup : db_insert.users.any (fun v =>
        v.id == fresh.id || v.uuid == fresh.uuid ||
        v.username == req.username || v.email == req.email) = true := by
      refine List.any_eq_true.mpr ⟨v, hv, ?_⟩
      simp [he]
    have : UserService.create_user db_check db_insert req fresh
        = .error (.integrityErr "Duplicate entry") := by
      unfold UserService.create_user UserRepository.create
      simp [h1, h2, hdup]
    exact ⟨this, by rw [this]; rfl⟩

/-- C9 witness: pre-check rejection at a concrete duplicate email (400), and
a concrete race — the email is absent at check time but present at insert
time — surfacing as 409. -/
theorem C9_witness :
    UserService.create_user demoDb demoDb
      { email := "alice@x.com", username := "newguy", first_name := "New",
        middle_name := none, last_name := "Guy", phone_number := "09170000001",
        phone_number2 := none, role_id := 2, password := "newguypw" }
      { id := 100, uuid := "uuid-newguy", now := 9 }
      = .error (.http 400 "Email already registered") ∧
    responseStatus (UserService.create_user { users := [], roles := [adminRole, memberRole] } demoDb
      { email := "alice@x.com", username := "newguy", first_name := "New",
        middle_name := none, last_name := "Guy", phone_number := "09170000001",
        phone_number2 := none, role_id := 2, password := "newguypw" }
      { id := 100, uuid := "uuid-newguy", now := 9 }) = 409 :=
  ⟨((C9_create_user_duplicate_handling demoDb demoDb _ _).1 (by decide)).1,
   ((C9_create_user_duplicate_handling { users := [], roles := [adminRole, memberRole] } demoDb _ _).2.2
      (by decide) (by decide) (by decide)).2⟩

/-- Concrete fixture builder for the oversize pagination database. -/
def mkPageUser (i : Nat) : User :=
  mkStoredUser (1000 + i) ("u" ++ toString i) ("u" ++ toString i ++ "@x.com")
    "pagedpw1" memberRole true

/-- Concrete fixture: a database holding 150 users. -/
def oversizeDb : DB := { users := (List.range 150).map mkPageUser, roles := [memberRole] }

/-- C10: list-users returns at most `limit` records after skipping the first
`skip`, the Python defaults are skip = 0 and limit = 100, and the limit is
not clamped to `MAX_PAGE_SIZE`: at a concrete 150-user database a caller
supplying limit = 150 receives 150 > MAX_PAGE_SIZE records in one
response. -/
theorem C10_get_all_users_pagination :
    (∀ (db : DB) (skip limit : Nat),
       UserService.get_all_users db skip limit
         = ((db.users.drop skip).take limit).map UserResponse.model_validate) ∧
    (∀ (db : DB) (skip limit : Nat),
       (UserService.get_all_users db skip limit).length ≤ limit) ∧
    (∀ db : DB, UserService.get_all_users db = UserService.get_all_users db 0 100) ∧
    Settings.MAX_PAGE_SIZE = 100 ∧
    (UserService.get_all_users oversizeDb 0 150).length = 150 ∧
    150 > Settings.MAX_PAGE_SIZE := by
  refine ⟨fun db skip limit => rfl, ?_, fun db => rfl, rfl, ?_, by decide⟩
  · intro db skip limit
    unfold UserService.get_all_users DB.get_all
    rw [List.length_map]
    exact List.length_take_le limit _
  · unfold UserService.get_all_users DB.get_all oversizeDb
    simp
